import Mathlib

/-!
Verification of the Emotive Voice Orchestration Engine of
natea/conversational-reflection.

The embedding follows the source code:
* `generate_elevenlabs_config` and `EmotiveTTSProcessor.process_frame`,
  Python code embedded in `src/docs/plans/roleplay-coaching-prd.md`;
* the session event handlers of `src/ginger_rp/src/hooks/usePipecatSync.ts`.
Intensities and voice-setting scalars are modelled as exact rationals.
-/

/-- The closed emotion enumeration `PrimaryEmotion` of
`emotive_tts_processor.py` as quoted in the PRD. -/
inductive PrimaryEmotion
  | joy
  | sadness
  | anger
  | fear
  | disgust
  | surprise
  | neutral
  deriving DecidableEq, BEq, Repr

/-- Intensity buckets: the `intensity_level` strings "low"/"medium"/"high"
of `generate_elevenlabs_config`. -/
inductive IntensityBucket
  | low
  | medium
  | high
  deriving DecidableEq, BEq, Repr

/-- One ElevenLabs `voice_settings` record, as produced by the presets in
`generate_elevenlabs_config`. -/
structure VoiceSettings where
  stability : ℚ
  similarity_boost : ℚ
  style : ℚ
  use_speaker_boost : Bool
  deriving DecidableEq, Repr

/-- The `state.body_state` fields used by `generate_elevenlabs_config`
(only `energy` is read there). -/
structure BodyState where
  energy : ℚ
  deriving DecidableEq, Repr

/-- The `state.primary_emotion` value as seen by the Python dict lookup
`emotion_presets.get(...)`: either a member of the closed enumeration or
some other (unmapped) value. -/
inductive EmotionInput
  | known : PrimaryEmotion → EmotionInput
  | unknown : String → EmotionInput
  deriving DecidableEq, Repr

/-- The `EmotiveVoiceState` fields consumed by
`generate_elevenlabs_config`. -/
structure EmotiveVoiceState where
  primary_emotion : EmotionInput
  intensity : ℚ
  body_state : Option BodyState
  deriving DecidableEq, Repr

/-- The intensity bucketing of `generate_elevenlabs_config`:
`if state.intensity < 0.35: "low" elif state.intensity < 0.7: "medium"
else: "high"`. -/
def intensity_level (intensity : ℚ) : IntensityBucket :=
  if intensity < 35/100 then .low
  else if intensity < 7/10 then .medium
  else .high

/-- The `emotion_presets` dict of `generate_elevenlabs_config`, transcribed
entry by entry as the nested association list it is in the source. -/
def emotion_presets :
    List (PrimaryEmotion × List (IntensityBucket × VoiceSettings)) :=
  [ (.joy,
      [ (.low, ⟨5/10, 75/100, 3/10, false⟩),
        (.medium, ⟨3/10, 75/100, 6/10, true⟩),
        (.high, ⟨2/10, 7/10, 8/10, true⟩) ]),
    (.sadness,
      [ (.low, ⟨6/10, 8/10, 2/10, false⟩),
        (.medium, ⟨7/10, 8/10, 3/10, false⟩),
        (.high, ⟨8/10, 85/100, 4/10, false⟩) ]),
    (.anger,
      [ (.low, ⟨4/10, 75/100, 5/10, true⟩),
        (.medium, ⟨2/10, 7/10, 8/10, true⟩),
        (.high, ⟨1/10, 65/100, 9/10, true⟩) ]),
    (.fear,
      [ (.low, ⟨5/10, 75/100, 4/10, false⟩),
        (.medium, ⟨4/10, 75/100, 5/10, true⟩),
        (.high, ⟨3/10, 7/10, 6/10, true⟩) ]),
    (.disgust,
      [ (.low, ⟨6/10, 8/10, 3/10, false⟩),
        (.medium, ⟨5/10, 8/10, 4/10, false⟩),
        (.high, ⟨4/10, 75/100, 5/10, false⟩) ]),
    (.surprise,
      [ (.low, ⟨4/10, 75/100, 5/10, true⟩),
        (.medium, ⟨3/10, 7/10, 7/10, true⟩),
        (.high, ⟨2/10, 65/100, 8/10, true⟩) ]),
    (.neutral,
      [ (.low, ⟨5/10, 75/100, 0, false⟩),
        (.medium, ⟨5/10, 75/100, 0, false⟩),
        (.high, ⟨5/10, 75/100, 0, false⟩) ]) ]

/-- The Python expression
`emotion_presets.get(state.primary_emotion, emotion_presets[PrimaryEmotion.NEUTRAL])`:
the inner bucket table for the snapshot's emotion, defaulting to the
neutral row when the emotion is not a dict key. -/
def preset_row (e : EmotionInput) : List (IntensityBucket × VoiceSettings) :=
  match e with
  | .known p => (emotion_presets.lookup p).getD
      ((emotion_presets.lookup .neutral).getD [])
  | .unknown _ => (emotion_presets.lookup .neutral).getD []

/-- The subsequent `[intensity_level]` subscript. A Python `KeyError` is
modelled by the unreachable `getD` default; totality is proved separately. -/
def preset_for (e : EmotionInput) (b : IntensityBucket) : VoiceSettings :=
  ((preset_row e).lookup b).getD ⟨0, 0, 0, false⟩

/-- The body-state modifier block of `generate_elevenlabs_config`:
`if energy > 0.7: style = min(1.0, style * 1.2)
elif energy < 0.3: style = style * 0.7`. -/
def apply_body_modifiers (body_state : Option BodyState)
    (preset : VoiceSettings) : VoiceSettings :=
  match body_state with
  | none => preset
  | some b =>
    if b.energy > 7/10 then
      { preset with style := min 1 (preset.style * (12/10)) }
    else if b.energy < 3/10 then
      { preset with style := preset.style * (7/10) }
    else preset

/-- `generate_elevenlabs_config`: bucket the intensity, look the preset up,
then apply the body-state modifiers. -/
def generate_elevenlabs_config (state : EmotiveVoiceState) : VoiceSettings :=
  apply_body_modifiers state.body_state
    (preset_for state.primary_emotion (intensity_level state.intensity))

/-- Modelled from the spec: `EmotiveTTSProcessor._get_current_state` lives in
`backend/emotive_tts_processor.py`, which is not under `src/`; the spec
(section 4.3) says that when the external emotional-state source is
unavailable the mapper substitutes a `neutral`/`intensity=0` snapshot. The
fallible source is embedded as an `Except` value. -/
def get_current_state (source : Except String EmotiveVoiceState) :
    EmotiveVoiceState :=
  match source with
  | .ok s => s
  | .error _ => ⟨.known .neutral, 0, none⟩

/-- The directive computation seen from a possibly-failing emotional-state
source: fetch (with fallback) and map through `generate_elevenlabs_config`. -/
def compute_directive (source : Except String EmotiveVoiceState) :
    VoiceSettings :=
  generate_elevenlabs_config (get_current_state source)

/-! ### The `EmotiveTTSProcessor.process_frame` flag machine (PRD) -/

/-- The downstream frame kinds distinguished by `process_frame`. -/
inductive Frame
  | llmResponseStart
  | llmResponseEnd
  | text (s : String)
  | other
  deriving DecidableEq, Repr

/-- The mutable processor fields read and written by `process_frame`. -/
structure ProcState where
  in_llm_response : Bool
  emotion_applied_for_utterance : Bool
  deriving DecidableEq, Repr

/-- One `process_frame` step on a downstream frame. The returned flag records
whether this step computed and applied an emotion directive (the
`if not self._emotion_applied_for_utterance` body ran). -/
def process_frame (st : ProcState) (f : Frame) : ProcState × Bool :=
  match f with
  | .llmResponseStart =>
      ({ st with in_llm_response := true,
                 emotion_applied_for_utterance := false }, false)
  | .llmResponseEnd =>
      ({ st with in_llm_response := false,
                 emotion_applied_for_utterance := false }, false)
  | .text _ =>
      if st.emotion_applied_for_utterance then (st, false)
      else ({ st with emotion_applied_for_utterance := true }, true)
  | .other => (st, false)

/-- Run `process_frame` over a frame list, counting directive applications. -/
def run_frames (st : ProcState) : List Frame → ProcState × Nat
  | [] => (st, 0)
  | f :: fs =>
      let p := process_frame st f
      let r := run_frames p.1 fs
      (r.1, (if p.2 then 1 else 0) + r.2)

/-! ### The `usePipecatSync.ts` session event handlers -/

/-- A finalized conversation-store message (`addConversationMessage`). -/
inductive Role
  | user
  | assistant
  deriving DecidableEq, Repr

/-- One record handed to the conversation store. -/
structure ConversationMessage where
  role : Role
  content : String
  deriving DecidableEq, Repr

/-- The session-level state mutated by the `usePipecatSync` handlers: the
two utterance buffers and speaking flags of `usePipecatStore`, the voice
state of `useGingerStore`, and the two message stores. -/
structure SyncState where
  currentUserUtterance : String
  currentBotUtterance : String
  userSpeaking : Bool
  botSpeaking : Bool
  voiceState : String
  history : List ConversationMessage
  gingerMessages : List String
  deriving DecidableEq, Repr

/-- The JavaScript `String.prototype.trim()` used by the handlers, modelled
structurally: drop whitespace characters from both ends. -/
def jsTrim (s : String) : String :=
  String.mk
    (((s.data.dropWhile Char.isWhitespace).reverse.dropWhile
        Char.isWhitespace).reverse)

/-- `handleUserStartedSpeaking`. -/
def handleUserStartedSpeaking (st : SyncState) : SyncState :=
  { st with userSpeaking := true, voiceState := "listening" }

/-- `handleUserStoppedSpeaking`: record the trimmed utterance when nonempty
(the JS truthiness test `if (utterance.trim())`), then
`setUserSpeaking(false)`, `finalizeUserUtterance()` (modelled from the spec:
`usePipecatStore.ts` is not under `src/`; the spec says finalization resets
the buffer), `setVoiceState('processing')`. -/
def handleUserStoppedSpeaking (st : SyncState) : SyncState :=
  let utterance := st.currentUserUtterance
  let st1 :=
    if jsTrim utterance = "" then st
    else { st with history := st.history ++ [⟨.user, jsTrim utterance⟩] }
  { st1 with userSpeaking := false, currentUserUtterance := "",
             voiceState := "processing" }

/-- `handleBotStartedSpeaking`: `resetCurrentBotUtterance()` (modelled from
the spec: the store action clears the accumulating buffer), then
`setBotSpeaking(true)`. -/
def handleBotStartedSpeaking (st : SyncState) : SyncState :=
  { st with currentBotUtterance := "", botSpeaking := true }

/-- `handleBotStoppedSpeaking`: when the trimmed utterance is nonempty, add
it to the conversation store and to the Ginger store; then
`setBotSpeaking(false)`, `finalizeBotUtterance()` (modelled from the spec:
resets the buffer), `setVoiceState('idle')`. -/
def handleBotStoppedSpeaking (st : SyncState) : SyncState :=
  let utterance := st.currentBotUtterance
  let st1 :=
    if jsTrim utterance = "" then st
    else { st with history := st.history ++ [⟨.assistant, jsTrim utterance⟩],
                   gingerMessages := st.gingerMessages ++ [jsTrim utterance] }
  { st1 with botSpeaking := false, currentBotUtterance := "",
             voiceState := "idle" }

/-- `handleUserTranscript`: `updateCurrentUserUtterance(data.text)` (modelled
from the spec: interim transcripts replace, last-write-wins). -/
def handleUserTranscript (st : SyncState) (t : String) : SyncState :=
  { st with currentUserUtterance := t }

/-- `handleBotLlmText`: `updateCurrentBotUtterance(data.text)` (modelled from
the spec and the hook's comment: LLM text chunks are accumulated, append not
replace). -/
def handleBotLlmText (st : SyncState) (t : String) : SyncState :=
  { st with currentBotUtterance := st.currentBotUtterance ++ t }

/-- The session events the hook registers handlers for. -/
inductive SessionEvent
  | userStartedSpeaking
  | userStoppedSpeaking
  | botStartedSpeaking
  | botStoppedSpeaking
  | userTranscript (t : String)
  | botLlmText (t : String)
  deriving DecidableEq, Repr

/-- Dispatch one session event to its handler. -/
def handleEvent (st : SyncState) : SessionEvent → SyncState
  | .userStartedSpeaking => handleUserStartedSpeaking st
  | .userStoppedSpeaking => handleUserStoppedSpeaking st
  | .botStartedSpeaking => handleBotStartedSpeaking st
  | .botStoppedSpeaking => handleBotStoppedSpeaking st
  | .userTranscript t => handleUserTranscript st t
  | .botLlmText t => handleBotLlmText st t

/-- Process a list of session events in arrival order. -/
def runEvents (st : SyncState) : List SessionEvent → SyncState
  | [] => st
  | e :: es => runEvents (handleEvent st e) es

/-! ### Self voice profile ceiling (Voice Profile Registry) -/

/-- Modelled from the spec: the Voice Profile Registry implementation is not
under `src/`. The spec (section 4.5) requires that the designated self
profile "must never receive the most extreme intensity bucket directives —
an explicit ceiling, not just a default": for the self profile the high
bucket is clamped down to medium. -/
def bucket_ceiling (isSelfProfile : Bool) (b : IntensityBucket) :
    IntensityBucket :=
  if isSelfProfile then
    match b with
    | .high => .medium
    | x => x
  else b

/-- Modelled from the spec: directive computation for a given voice profile,
with the self-profile intensity ceiling applied between bucketing and table
lookup. -/
def directive_for_profile (isSelfProfile : Bool)
    (state : EmotiveVoiceState) : VoiceSettings :=
  apply_body_modifiers state.body_state
    (preset_for state.primary_emotion
      (bucket_ceiling isSelfProfile (intensity_level state.intensity)))

/-! ## Theorems settling the specification claims -/

/-- Claim C2: the directive-table lookup is total: for every primary emotion
in the closed enumeration and every intensity bucket, the nested dict lookup
of `emotion_presets` finds an entry — all 21 combinations are present, so no
missing-case (`KeyError`) path is reachable. -/
theorem emotion_presets_lookup_total (e : PrimaryEmotion)
    (b : IntensityBucket) :
    ((emotion_presets.lookup e).bind (fun row => row.lookup b)).isSome
      = true := by
  cases e <;> cases b <;> rfl

/-- Claim C3: intensity bucketing uses exact half-open boundaries: on
`[0,1]`, `intensity < 0.35` is the low bucket, `0.35 ≤ intensity < 0.7` the
medium bucket, and `intensity ≥ 0.7` the high bucket. -/
theorem intensity_level_boundaries (q : ℚ) (h0 : 0 ≤ q) (h1 : q ≤ 1) :
    (intensity_level q = .low ↔ q < 35/100) ∧
    (intensity_level q = .medium ↔ 35/100 ≤ q ∧ q < 7/10) ∧
    (intensity_level q = .high ↔ 7/10 ≤ q) := by
  unfold intensity_level
  split_ifs with hlo hmed
  · refine ⟨⟨fun _ => hlo, fun _ => rfl⟩, ⟨?_, ?_⟩, ⟨?_, ?_⟩⟩ <;> intro h
    · simp at h
    · exfalso; linarith [h.1]
    · simp at h
    · exfalso; linarith
  · rw [not_lt] at hlo
    refine ⟨⟨?_, ?_⟩, ⟨fun _ => ⟨hlo, hmed⟩, fun _ => rfl⟩, ⟨?_, ?_⟩⟩ <;>
      intro h
    · simp at h
    · exfalso; linarith
    · simp at h
    · exfalso; linarith
  · rw [not_lt] at hlo hmed
    refine ⟨⟨?_, ?_⟩, ⟨?_, ?_⟩, ⟨fun _ => hmed, fun _ => rfl⟩⟩ <;> intro h
    · simp at h
    · exfalso; linarith
    · simp at h
    · exfalso; linarith [h.2]

/-- Witness for claim C3: `0.35` and `0.6999` land in the medium bucket and
exactly `0.7` lands in the high bucket. -/
theorem intensity_level_boundaries_wit :
    intensity_level (35/100) = .medium ∧
    intensity_level (6999/10000) = .medium ∧
    intensity_level (7/10) = .high :=
  ⟨((intensity_level_boundaries (35/100) (by norm_num) (by norm_num)).2.1).mpr
      (by norm_num),
   ((intensity_level_boundaries (6999/10000) (by norm_num)
      (by norm_num)).2.1).mpr (by norm_num),
   ((intensity_level_boundaries (7/10) (by norm_num) (by norm_num)).2.2).mpr
      (by norm_num)⟩

/-- Claim C4: body-state modifiers are applied after bucket lookup and keep
the adjusted `style` field inside `[0,1]`: energy above `0.7` multiplies it
by `1.2` under a clamp at `1`, energy below `0.3` multiplies it by `0.7`,
and for every base style in `[0,1]` the result stays in `[0,1]`. -/
theorem apply_body_modifiers_clamps (preset : VoiceSettings) (b : BodyState)
    (h0 : 0 ≤ preset.style) (h1 : preset.style ≤ 1) :
    (0 ≤ (apply_body_modifiers (some b) preset).style ∧
      (apply_body_modifiers (some b) preset).style ≤ 1) ∧
    (7/10 < b.energy →
      (apply_body_modifiers (some b) preset).style
        = min 1 (preset.style * (12/10))) ∧
    (b.energy < 3/10 →
      (apply_body_modifiers (some b) preset).style
        = preset.style * (7/10)) := by
  simp only [apply_body_modifiers]
  split_ifs with he1 he2
  · refine ⟨⟨le_min (by norm_num) (by nlinarith), min_le_left _ _⟩,
      fun _ => rfl, fun h => ?_⟩
    exfalso; linarith
  · refine ⟨⟨by nlinarith, by nlinarith⟩, fun h => ?_, fun _ => rfl⟩
    exfalso; linarith
  · refine ⟨⟨h0, h1⟩, fun h => ?_, fun h => ?_⟩ <;> exfalso <;> linarith

/-- Witness for claim C4: energy `1.0` with base style `0.9` and the `×1.2`
modifier clamps to exactly `1`, not `1.08`. -/
theorem apply_body_modifiers_clamps_wit :
    (apply_body_modifiers (some ⟨1⟩) ⟨1/2, 3/4, 9/10, false⟩).style = 1 := by
  have h := (apply_body_modifiers_clamps ⟨1/2, 3/4, 9/10, false⟩ ⟨1⟩
    (by norm_num) (by norm_num)).2.1 (by norm_num)
  rw [h]
  norm_num [min_def]

/-- Claim C5: when the external emotional-state source fails, the directive
computation substitutes the neutral intensity-0 snapshot and returns the
neutral directive; being a total function, it propagates no exception. -/
theorem compute_directive_source_failure (err : String) :
    compute_directive (Except.error err)
      = preset_for (.known .neutral) (intensity_level 0) ∧
    compute_directive (Except.error err)
      = ⟨5/10, 75/100, 0, false⟩ := by
  constructor
  · rfl
  · have hb : intensity_level 0 = .low := by
      unfold intensity_level
      norm_num
    show apply_body_modifiers none
      (preset_for (.known .neutral) (intensity_level 0)) = _
    rw [hb]
    rfl

/-- Text chunks arriving while the applied-flag is set neither recompute the
directive nor change the processor state. -/
theorem run_frames_text_applied (st : ProcState) (chunks : List Frame)
    (hchunks : ∀ f ∈ chunks, ∃ s, f = Frame.text s)
    (hap : st.emotion_applied_for_utterance = true) :
    run_frames st chunks = (st, 0) := by
  induction chunks with
  | nil => rfl
  | cons c cs ih =>
      obtain ⟨s, rfl⟩ := hchunks c (List.mem_cons_self c cs)
      simp only [run_frames, process_frame, hap, if_true]
      simpa using ih (fun f hf => hchunks f (List.mem_cons_of_mem _ hf))

/-- Claim C1: per bot utterance the emotion directive is applied exactly
once even when the text arrives in `N > 1` chunks: the flag is reset by the
response-start frame, set by the first text chunk, and the total number of
directive computations over the whole utterance is 1. -/
theorem directive_applied_once_per_utterance (st : ProcState)
    (chunks : List Frame)
    (hchunks : ∀ f ∈ chunks, ∃ s, f = Frame.text s) (hne : chunks ≠ []) :
    (process_frame st .llmResponseStart).1.emotion_applied_for_utterance
      = false ∧
    (run_frames st (Frame.llmResponseStart :: chunks)).2 = 1 := by
  refine ⟨rfl, ?_⟩
  obtain ⟨c, cs, rfl⟩ := List.exists_cons_of_ne_nil hne
  obtain ⟨s, rfl⟩ := hchunks _ (List.mem_cons_self _ _)
  have h0 := run_frames_text_applied
    ⟨true, true⟩ cs (fun f hf => hchunks f (List.mem_cons_of_mem _ hf)) rfl
  simp [run_frames, process_frame, h0]

/-- Witness for claim C1: a two-chunk utterance computes the directive
exactly once. -/
theorem directive_applied_once_per_utterance_wit :
    (run_frames ⟨false, true⟩
      [Frame.llmResponseStart, Frame.text "Hi", Frame.text " there"]).2
      = 1 := by
  have h := directive_applied_once_per_utterance ⟨false, true⟩
    [Frame.text "Hi", Frame.text " there"]
    (by intro f hf
        simp only [List.mem_cons, List.not_mem_nil, or_false] at hf
        rcases hf with rfl | rfl
        · exact ⟨"Hi", rfl⟩
        · exact ⟨" there", rfl⟩)
    (by simp)
  exact h.2

/-- Claim C6: the event sequence start / chunk "Hi" / chunk " there" / stop
clears the bot buffer on start, appends the chunks, and finalizes exactly
one history record with text "Hi there". -/
theorem bot_utterance_round_trip (st : SyncState) :
    (runEvents st [.botStartedSpeaking, .botLlmText "Hi", .botLlmText " there",
        .botStoppedSpeaking]).history
      = st.history ++ [⟨.assistant, "Hi there"⟩] ∧
    (runEvents st [.botStartedSpeaking, .botLlmText "Hi", .botLlmText " there",
        .botStoppedSpeaking]).currentBotUtterance = "" := by
  have happ : ("" : String) ++ "Hi" ++ " there" = "Hi there" := rfl
  have htrim : jsTrim "Hi there" = "Hi there" := by decide
  have hne : ¬(jsTrim "Hi there" = "") := by decide
  simp [runEvents, handleEvent, handleBotStartedSpeaking, handleBotLlmText,
        handleBotStoppedSpeaking, happ, htrim, hne]

/-- Claim C7: an utterance whose accumulated text trims to empty at the
moment speech stops is discarded: neither the user nor the bot stop handler
records it in any store. -/
theorem whitespace_utterance_discarded (st : SyncState)
    (hu : jsTrim st.currentUserUtterance = "")
    (hb : jsTrim st.currentBotUtterance = "") :
    (handleUserStoppedSpeaking st).history = st.history ∧
    (handleBotStoppedSpeaking st).history = st.history ∧
    (handleBotStoppedSpeaking st).gingerMessages = st.gingerMessages := by
  simp [handleUserStoppedSpeaking, handleBotStoppedSpeaking, hu, hb]

/-- Witness for claim C7: a whitespace-only user utterance produces no
history record. -/
theorem whitespace_utterance_discarded_wit :
    (handleUserStoppedSpeaking
      ⟨"  ", " ", true, false, "listening", [], []⟩).history = [] :=
  (whitespace_utterance_discarded ⟨"  ", " ", true, false, "listening", [], []⟩
    (by decide) (by decide)).1

/-- Claim C8: a `userStoppedSpeaking` event received when the user buffer is
already reset (idle) adds no duplicate history record, leaves the buffer
empty, and a repeated stop is idempotent — the handler is total, so no
crash is possible. -/
theorem user_stop_while_idle_noop (st : SyncState)
    (hidle : st.currentUserUtterance = "") :
    (handleUserStoppedSpeaking st).history = st.history ∧
    (handleUserStoppedSpeaking st).currentUserUtterance = "" ∧
    handleUserStoppedSpeaking (handleUserStoppedSpeaking st)
      = handleUserStoppedSpeaking st := by
  have h : jsTrim "" = "" := rfl
  refine ⟨?_, ?_, ?_⟩ <;>
    simp [handleUserStoppedSpeaking, hidle, h]

/-- Witness for claim C8: a stray stop in the idle state leaves the single
existing history record untouched. -/
theorem user_stop_while_idle_noop_wit :
    (handleUserStoppedSpeaking
      ⟨"", "", false, false, "idle", [⟨.user, "hello"⟩], []⟩).history
      = [⟨.user, "hello"⟩] :=
  (user_stop_while_idle_noop ⟨"", "", false, false, "idle",
    [⟨.user, "hello"⟩], []⟩ rfl).1

/-- Claim C9: the self voice profile never receives a directive from the
high intensity bucket: for every snapshot, the bucket used after the
ceiling is not `high`, and the directive applied is the one looked up at
that clamped bucket. -/
theorem self_profile_intensity_ceiling (state : EmotiveVoiceState) :
    bucket_ceiling true (intensity_level state.intensity)
      ≠ IntensityBucket.high ∧
    directive_for_profile true state
      = apply_body_modifiers state.body_state
          (preset_for state.primary_emotion
            (bucket_ceiling true (intensity_level state.intensity))) := by
  constructor
  · cases h : intensity_level state.intensity <;> simp [bucket_ceiling]
  · rfl

/-- Claim C10: for a primary-emotion value outside the seven mapped
emotions, the config generation does not fail but silently uses the neutral
emotion's preset at the computed bucket. -/
theorem unknown_emotion_neutral_fallback (s : String)
    (state : EmotiveVoiceState)
    (h : state.primary_emotion = .unknown s) :
    generate_elevenlabs_config state
      = generate_elevenlabs_config
          { state with primary_emotion := .known .neutral } := by
  have hrow : preset_row (EmotionInput.unknown s)
      = preset_row (.known .neutral) := rfl
  simp [generate_elevenlabs_config, preset_for, h, hrow]

/-- Witness for claim C10: an unmapped emotion string produces the same
config as the neutral emotion at the same intensity. -/
theorem unknown_emotion_neutral_fallback_wit :
    generate_elevenlabs_config ⟨.unknown "confused", 1/2, none⟩
      = generate_elevenlabs_config ⟨.known .neutral, 1/2, none⟩ :=
  unknown_emotion_neutral_fallback "confused"
    ⟨.unknown "confused", 1/2, none⟩ rfl
